import Mathlib

/-
Verification of the process-lifecycle watchdog and the mode-selected tool
registry of a Playwright MCP server (source file `src/program.ts`).

The watchdog (`setupExitWatchdog`) is embedded as a small-step state machine
over an explicit single-threaded event loop: timer callbacks, signal
handlers and stream events are events; the async `shutdown` closure is split
at its single `await` point into a synchronous entry (`shutdownSync`) and
two resume events (`stopResolveOk` / `stopResolveErr`).  `process.exit`
runs the registered `exit` listener and freezes the state.  Ghost fields
(`stopCalls`, `forceExitArmCount`, `shutdownInvocations`, `exitPath`)
record observations that the theorems speak about; they influence no branch
of the modelled code.

The registries (`snapshotTools`, `screenshotTools`, `commonTools`) are
embedded as lists of named tools in the declaration order of `program.ts`.
The individual tool definitions live in source files that are not part of
this repository snapshot; they are modelled from the spec.
-/

/-- A tool exposed by the server: a name, plus, for the navigation tools
that exist in both modes, the boolean argument they are constructed with in
`program.ts` (`true` in the snapshot registry, `false` in the screenshot
registry). -/
structure Tool where
  name : String
  snapshotParam : Option Bool
deriving DecidableEq, Repr

namespace common

/-- Modelled from the spec: `src/tools/common.ts` is absent from the source
snapshot.  The spec names a navigation tool ("navigate") that exists in both
modes, "parameterized by whether it returns a snapshot or a screenshot";
`program.ts` passes `true` when building the snapshot registry and `false`
when building the screenshot registry. -/
def navigate (snapshot : Bool) : Tool := ⟨"navigate", some snapshot⟩

/-- Modelled from the spec: the mode-parameterized back-navigation tool. -/
def goBack (snapshot : Bool) : Tool := ⟨"go-back", some snapshot⟩

/-- Modelled from the spec: the mode-parameterized forward-navigation tool. -/
def goForward (snapshot : Bool) : Tool := ⟨"go-forward", some snapshot⟩

/-- Modelled from the spec: the common key-press tool. -/
def pressKey : Tool := ⟨"press-key", none⟩

/-- Modelled from the spec: the common wait tool. -/
def wait : Tool := ⟨"wait", none⟩

/-- Modelled from the spec: the common export-to-pdf tool. -/
def pdf : Tool := ⟨"pdf", none⟩

/-- Modelled from the spec: the common close tool. -/
def close : Tool := ⟨"close", none⟩

end common

namespace snapshot

/-- Modelled from the spec: `src/tools/snapshot.ts` is absent from the
source snapshot; the accessibility-snapshot capture tool. -/
def snapshot : Tool := ⟨"snapshot", none⟩

/-- Modelled from the spec: the snapshot-mode click tool. -/
def click : Tool := ⟨"click", none⟩

/-- Modelled from the spec: the snapshot-mode hover tool. -/
def hover : Tool := ⟨"hover", none⟩

/-- Modelled from the spec: the snapshot-mode type tool. -/
def type : Tool := ⟨"type", none⟩

end snapshot

namespace screenshot

/-- Modelled from the spec: `src/tools/screenshot.ts` is absent from the
source snapshot; the screenshot capture tool. -/
def screenshot : Tool := ⟨"screenshot", none⟩

/-- Modelled from the spec: the screenshot-mode mouse-move tool. -/
def moveMouse : Tool := ⟨"move-mouse", none⟩

/-- Modelled from the spec: the screenshot-mode click tool. -/
def click : Tool := ⟨"click", none⟩

/-- Modelled from the spec: the screenshot-mode drag tool. -/
def drag : Tool := ⟨"drag", none⟩

/-- Modelled from the spec: the screenshot-mode type tool. -/
def type : Tool := ⟨"type", none⟩

end screenshot

/-- The mode-independent common tools, in the declaration order of
`program.ts` (`commonTools`). -/
def commonTools : List Tool :=
  [common.pressKey, common.wait, common.pdf, common.close]

/-- The snapshot-mode-specific tools: the part of `snapshotTools` declared
before the `...commonTools` spread in `program.ts`. -/
def snapshotSpecificTools : List Tool :=
  [common.navigate true, common.goBack true, common.goForward true,
   snapshot.snapshot, snapshot.click, snapshot.hover, snapshot.type]

/-- `snapshotTools` of `program.ts`: the snapshot-specific tools followed by
the spread of `commonTools`. -/
def snapshotTools : List Tool := snapshotSpecificTools ++ commonTools

/-- The screenshot-mode-specific tools: the part of `screenshotTools`
declared before the `...commonTools` spread in `program.ts`. -/
def screenshotSpecificTools : List Tool :=
  [common.navigate false, common.goBack false, common.goForward false,
   screenshot.screenshot, screenshot.moveMouse, screenshot.click,
   screenshot.drag, screenshot.type]

/-- `screenshotTools` of `program.ts`: the screenshot-specific tools
followed by the spread of `commonTools`. -/
def screenshotTools : List Tool := screenshotSpecificTools ++ commonTools

/-- `const tools = options.vision ? screenshotTools : snapshotTools;` -/
def selectTools (vision : Bool) : List Tool :=
  if vision then screenshotTools else snapshotTools

/-- The names of the tools of a registry, in registry order. -/
def toolNames (ts : List Tool) : List String := ts.map Tool.name

/-- Whitespace skipped by JavaScript `parseInt`. -/
def isSpaceChar (c : Char) : Bool :=
  c = ' ' || c = '\t' || c = '\n' || c = '\r'

/-- The longest prefix of decimal digits. -/
def leadingDigits (cs : List Char) : List Char :=
  cs.takeWhile (fun c => c.isDigit)

/-- Numeric value of a list of decimal digits. -/
def digitsVal (cs : List Char) : Nat :=
  List.foldl (fun a c => 10 * a + (c.toNat - 48)) 0 cs

/-- JavaScript `parseInt(s, 10)` as used by the `--max-lifetime` and
`--idle-timeout` option parsers in `program.ts`: skip leading whitespace,
read an optional sign, then the longest prefix of decimal digits; `none`
models the `NaN` result produced when no digits are found. -/
def parseIntJS (s : String) : Option Int :=
  let cs := s.toList.dropWhile isSpaceChar
  let signed : Int × List Char :=
    match cs with
    | '-' :: r => (-1, r)
    | '+' :: r => (1, r)
    | r => (1, r)
  let ds := leadingDigits signed.2
  if ds.isEmpty then none else some (signed.1 * (digitsVal ds : Int))

/-- Result of program startup.  `serving` carries the two parsed lifetime
flag values that `setupExitWatchdog` is armed with (`none` models `NaN`);
`configError` is a hypothetical startup rejection of a bad flag value.
Nothing in `program.ts` produces `configError`: the commander action always
runs. -/
inductive StartResult where
  | serving (maxLifetime idleTimeout : Option Int)
  | configError
deriving DecidableEq, Repr

/-- Handling of one `--max-lifetime` / `--idle-timeout` flag: the declared
default when the flag is absent, otherwise `(s) => parseInt(s, 10)` applied
to the supplied value. -/
def parseFlagValue : Option String → Int → Option Int
  | none, dflt => some dflt
  | some s, _ => parseIntJS s

/-- The `program.action` startup path of `program.ts`, restricted to the
lifetime flags: parse both flags (defaults 60 and 30) and start serving
with whatever values result.  There is no validation branch. -/
def runProgram (maxLifetimeArg idleTimeoutArg : Option String) : StartResult :=
  .serving (parseFlagValue maxLifetimeArg 60) (parseFlagValue idleTimeoutArg 30)

/-- Which of the three `process.exit` call sites of `setupExitWatchdog`
terminated the process (ghost observation). -/
inductive ExitPath where
  | graceful
  | teardownErr
  | forced
deriving DecidableEq, Repr

/-- The configuration `setupExitWatchdog` is armed with, plus the
`NODE_ENV` environment the max-lifetime callback inspects. -/
structure Config where
  maxLifetimeSeconds : Nat
  idleTimeoutSeconds : Nat
  nodeEnvTest : Bool
deriving DecidableEq, Repr

/-- `const maxLifetimeMs = maxLifetimeSeconds * 1000;` -/
def Config.maxLifetimeMs (c : Config) : Nat := c.maxLifetimeSeconds * 1000

/-- `const idleTimeoutMs = idleTimeoutSeconds * 1000;` -/
def Config.idleTimeoutMs (c : Config) : Nat := c.idleTimeoutSeconds * 1000

/-- The run-loop state of `setupExitWatchdog`.  Pending timers are absolute
deadlines (`none` = cleared or fired).  `idleVarSet` models the `idleTimer`
variable being non-null (the handle it holds may or may not still be
pending).  `stopCalls`, `forceExitArmCount`, `shutdownInvocations` and
`exitPath` are ghost counters/observations. -/
structure St where
  now : Nat
  shuttingDown : Bool
  maxLifetimePending : Option Nat
  idleVarSet : Bool
  idlePending : Option Nat
  forceExitPending : Option Nat
  stopInFlight : Bool
  stopCalls : Nat
  forceExitArmCount : Nat
  shutdownInvocations : Nat
  exited : Option Nat
  exitPath : Option ExitPath
deriving DecidableEq, Repr

/-- The synchronous part of the `shutdown` closure, up to and including the
call of `server.stop()` (everything before the `await` suspension): check
the `isShuttingDown` guard; if clear, set it, arm the 15000 ms force-exit
timer and initiate teardown. -/
def shutdownSync (s : St) : St :=
  if s.shuttingDown then s
  else
    { s with
      shuttingDown := true
      forceExitPending := some (s.now + 15000)
      forceExitArmCount := s.forceExitArmCount + 1
      stopInFlight := true
      stopCalls := s.stopCalls + 1 }

/-- One invocation of the `shutdown` closure: bump the ghost invocation
counter, then run the synchronous body. -/
def invokeShutdown (s : St) : St :=
  shutdownSync { s with shutdownInvocations := s.shutdownInvocations + 1 }

/-- `process.exit(code)`: run the registered `exit` listener, which clears
the `idleTimer` handle if the variable is non-null and clears
`maxLifetimeTimeout`, then terminate with `code`.  The force-exit timer is
local to `shutdown` and is not touched by the listener. -/
def procExit (code : Nat) (p : ExitPath) (s : St) : St :=
  { s with
    idlePending := if s.idleVarSet then none else s.idlePending
    maxLifetimePending := none
    exited := some code
    exitPath := some p }

/-- The events of the single-threaded run loop. -/
inductive Event where
  | tick (t : Nat)
  | maxLifetimeFires
  | idleFires
  | sigint
  | sigterm
  | stdinClose
  | stdinData (valid : Bool)
  | stopResolveOk
  | stopResolveErr
  | forceExitFires
deriving DecidableEq, Repr

/-- Whether a pending deadline has been reached. -/
def deadlineReached (now : Nat) : Option Nat → Bool
  | some d => decide (d ≤ now)
  | none => false

/-- When an event can be delivered: the process must not have exited; a
timer callback needs its timer pending and its deadline reached; a stop
continuation needs a teardown in flight. -/
def enabled (s : St) : Event → Bool
  | .tick t => s.exited.isNone && decide (s.now ≤ t)
  | .maxLifetimeFires => s.exited.isNone && deadlineReached s.now s.maxLifetimePending
  | .idleFires => s.exited.isNone && deadlineReached s.now s.idlePending
  | .sigint => s.exited.isNone
  | .sigterm => s.exited.isNone
  | .stdinClose => s.exited.isNone
  | .stdinData _ => s.exited.isNone
  | .stopResolveOk => s.exited.isNone && s.stopInFlight
  | .stopResolveErr => s.exited.isNone && s.stopInFlight
  | .forceExitFires => s.exited.isNone && deadlineReached s.now s.forceExitPending

/-- One run-loop step of `setupExitWatchdog`.
* `maxLifetimeFires`: the timer fires; the callback invokes `shutdown` only
  when `process.env.NODE_ENV !== "test"`.
* `idleFires`: the idle timer fires; its callback invokes `shutdown`.
* `sigint` / `sigterm` / `stdinClose`: the registered handler is `shutdown`.
* `stdinData`: the data handler checks the `idleTimer` variable for
  non-null, clears the handle and re-arms it with `idleTimeoutMs`; the
  payload is ignored.
* `stopResolveOk`: the `await server.stop()` resumes normally; the
  force-exit timer is cleared and `process.exit(0)` runs.
* `stopResolveErr`: the `await` resumes with an error; the catch block runs
  `process.exit(1)` without clearing the force-exit timer.
* `forceExitFires`: the force-exit timer fires and runs `process.exit(0)`. -/
def step (cfg : Config) (s : St) : Event → St
  | .tick t => { s with now := t }
  | .maxLifetimeFires =>
      let s1 := { s with maxLifetimePending := none }
      if cfg.nodeEnvTest then s1 else invokeShutdown s1
  | .idleFires => invokeShutdown { s with idlePending := none }
  | .sigint => invokeShutdown s
  | .sigterm => invokeShutdown s
  | .stdinClose => invokeShutdown s
  | .stdinData _ =>
      if s.idleVarSet then { s with idlePending := some (s.now + cfg.idleTimeoutMs) }
      else s
  | .stopResolveOk =>
      procExit 0 .graceful { s with stopInFlight := false, forceExitPending := none }
  | .stopResolveErr =>
      procExit 1 .teardownErr { s with stopInFlight := false }
  | .forceExitFires =>
      procExit 0 .forced { s with forceExitPending := none }

/-- The state right after `setupExitWatchdog` returns (arm time taken as
time 0): both watchdog timers armed at their absolute deadlines, the
`idleTimer` variable non-null, nothing shutting down. -/
def initSt (cfg : Config) : St :=
  { now := 0
    shuttingDown := false
    maxLifetimePending := some cfg.maxLifetimeMs
    idleVarSet := true
    idlePending := some cfg.idleTimeoutMs
    forceExitPending := none
    stopInFlight := false
    stopCalls := 0
    forceExitArmCount := 0
    shutdownInvocations := 0
    exited := none
    exitPath := none }

/-- The states reachable by the watchdog run loop. -/
inductive Reachable (cfg : Config) : St → Prop where
  | init : Reachable cfg (initSt cfg)
  | step : ∀ s e, Reachable cfg s → enabled s e = true → Reachable cfg (step cfg s e)

/-- Apply an event if it is deliverable, otherwise leave the state alone. -/
def stepE (cfg : Config) (s : St) (e : Event) : St :=
  if enabled s e then step cfg s e else s

/-- Run a whole event trace from the armed state. -/
def runEvents (cfg : Config) (es : List Event) : St :=
  List.foldl (stepE cfg) (initSt cfg) es

/-- The shutdown-relevant observables of a state: everything that
determines what the shutdown sequence does and how the process exits
(guard flag, teardown initiations, force-exit timer, in-flight teardown,
exit code, exit path). -/
def shutdownOutcome (s : St) : Bool × Nat × Option Nat × Bool × Option Nat × Option ExitPath :=
  (s.shuttingDown, s.stopCalls, s.forceExitPending, s.stopInFlight, s.exited, s.exitPath)

/-- The inductive invariant of the watchdog run loop. -/
structure WdInv (cfg : Config) (s : St) : Prop where
  idleVar : s.idleVarSet = true
  stop : s.stopCalls = if s.shuttingDown then 1 else 0
  arm : s.forceExitArmCount = if s.shuttingDown then 1 else 0
  notShutting : s.shuttingDown = false →
    s.forceExitPending = none ∧ s.stopInFlight = false ∧ s.exited = none ∧ s.exitPath = none
  pathIff : s.exitPath = none ↔ s.exited = none
  pathGraceful : s.exitPath = some .graceful → s.exited = some 0 ∧ s.forceExitPending = none
  pathForced : s.exitPath = some .forced → s.exited = some 0 ∧ s.forceExitPending = none
  pathErr : s.exitPath = some .teardownErr → s.exited = some 1 ∧ s.forceExitPending ≠ none
  exitTimers : s.exited ≠ none → s.idlePending = none ∧ s.maxLifetimePending = none
  inflight : s.stopInFlight = true → s.exited = none → s.forceExitPending ≠ none
  maxAbs : s.maxLifetimePending = some cfg.maxLifetimeMs ∨ s.maxLifetimePending = none

/-- Re-invoking the `shutdown` closure after the guard is set leaves the
state untouched. -/
theorem shutdownSync_of_shutting (s : St) (h : s.shuttingDown = true) :
    shutdownSync s = s := by
  simp [shutdownSync, h]

/-- A deliverable event finds the process still alive. -/
theorem enabled_exited (s : St) (e : Event) (hE : enabled s e = true) :
    s.exited = none := by
  cases e <;> simp [enabled, Option.isNone_iff_eq_none] at hE <;> tauto

/-- A reached deadline belongs to a pending timer. -/
theorem deadlineReached_ne_none (now : Nat) (o : Option Nat)
    (h : deadlineReached now o = true) : o ≠ none := by
  cases o <;> simp [deadlineReached] at h ⊢

/-- The invariant holds in the armed state. -/
theorem inv_init (cfg : Config) : WdInv cfg (initSt cfg) := by
  constructor <;> simp [initSt]

/-- The synchronous shutdown entry preserves the invariant. -/
theorem inv_shutdownSync (cfg : Config) (s : St) (hI : WdInv cfg s)
    (hx : s.exited = none) : WdInv cfg (shutdownSync s) := by
  by_cases h : s.shuttingDown = true
  · rw [shutdownSync_of_shutting s h]; exact hI
  · have h0 : s.shuttingDown = false := by
      cases hsd : s.shuttingDown
      · rfl
      · exact absurd hsd h
    obtain ⟨hfe, hsf, hex, hep⟩ := hI.notShutting h0
    have hstop : s.stopCalls = 0 := by simpa [h0] using hI.stop
    have harm : s.forceExitArmCount = 0 := by simpa [h0] using hI.arm
    unfold shutdownSync
    rw [h0]
    refine ⟨hI.idleVar, ?_, ?_, ?_, ?_, ?_, ?_, ?_, ?_, ?_, hI.maxAbs⟩ <;>
      simp [hstop, harm, hex, hep, hfe, hsf]

/-- One invocation of the `shutdown` closure preserves the invariant. -/
theorem inv_invokeShutdown (cfg : Config) (s : St) (hI : WdInv cfg s)
    (hx : s.exited = none) : WdInv cfg (invokeShutdown s) := by
  have hI2 : WdInv cfg { s with shutdownInvocations := s.shutdownInvocations + 1 } :=
    ⟨hI.idleVar, hI.stop, hI.arm, hI.notShutting, hI.pathIff, hI.pathGraceful,
     hI.pathForced, hI.pathErr, hI.exitTimers, hI.inflight, hI.maxAbs⟩
  exact inv_shutdownSync cfg _ hI2 hx

/-- Every deliverable run-loop step preserves the invariant. -/
theorem inv_step (cfg : Config) (s : St) (e : Event) (hI : WdInv cfg s)
    (hE : enabled s e = true) : WdInv cfg (step cfg s e) := by
  have hx : s.exited = none := enabled_exited s e hE
  cases e with
  | tick t =>
      exact ⟨hI.idleVar, hI.stop, hI.arm, hI.notShutting, hI.pathIff, hI.pathGraceful,
             hI.pathForced, hI.pathErr, hI.exitTimers, hI.inflight, hI.maxAbs⟩
  | maxLifetimeFires =>
      have hI1 : WdInv cfg { s with maxLifetimePending := none } :=
        ⟨hI.idleVar, hI.stop, hI.arm, hI.notShutting, hI.pathIff, hI.pathGraceful,
         hI.pathForced, hI.pathErr, fun h => (h hx).elim, hI.inflight, Or.inr rfl⟩
      by_cases ht : cfg.nodeEnvTest
      · simpa [step, ht] using hI1
      · simpa [step, ht] using inv_invokeShutdown cfg _ hI1 hx
  | idleFires =>
      have hI1 : WdInv cfg { s with idlePending := none } :=
        ⟨hI.idleVar, hI.stop, hI.arm, hI.notShutting, hI.pathIff, hI.pathGraceful,
         hI.pathForced, hI.pathErr, fun h => (h hx).elim, hI.inflight, hI.maxAbs⟩
      exact inv_invokeShutdown cfg _ hI1 hx
  | sigint => exact inv_invokeShutdown cfg s hI hx
  | sigterm => exact inv_invokeShutdown cfg s hI hx
  | stdinClose => exact inv_invokeShutdown cfg s hI hx
  | stdinData b =>
      have hg : step cfg s (.stdinData b)
          = { s with idlePending := some (s.now + cfg.idleTimeoutMs) } := by
        unfold step
        rw [hI.idleVar]
        simp
      rw [hg]
      exact ⟨hI.idleVar, hI.stop, hI.arm, hI.notShutting, hI.pathIff, hI.pathGraceful,
             hI.pathForced, hI.pathErr, fun h => (h hx).elim, hI.inflight, hI.maxAbs⟩
  | stopResolveOk =>
      have hsf : s.stopInFlight = true := by
        simp [enabled, Option.isNone_iff_eq_none] at hE
        exact hE.2
      have hsd : s.shuttingDown = true := by
        cases h : s.shuttingDown
        · exact absurd ((hI.notShutting h).2.1) (by simp [hsf])
        · rfl
      have hstop1 : s.stopCalls = 1 := by simpa [hsd] using hI.stop
      have harm1 : s.forceExitArmCount = 1 := by simpa [hsd] using hI.arm
      constructor <;> simp [step, procExit, hI.idleVar, hsd, hstop1, harm1]
  | stopResolveErr =>
      have hsf : s.stopInFlight = true := by
        simp [enabled, Option.isNone_iff_eq_none] at hE
        exact hE.2
      have hsd : s.shuttingDown = true := by
        cases h : s.shuttingDown
        · exact absurd ((hI.notShutting h).2.1) (by simp [hsf])
        · rfl
      have hstop1 : s.stopCalls = 1 := by simpa [hsd] using hI.stop
      have harm1 : s.forceExitArmCount = 1 := by simpa [hsd] using hI.arm
      have hfe : s.forceExitPending ≠ none := hI.inflight hsf hx
      constructor <;> simp [step, procExit, hI.idleVar, hsd, hstop1, harm1, hfe]
  | forceExitFires =>
      have hdl : deadlineReached s.now s.forceExitPending = true := by
        simp [enabled, Option.isNone_iff_eq_none] at hE
        exact hE.2
      have hfe : s.forceExitPending ≠ none := deadlineReached_ne_none _ _ hdl
      have hsd : s.shuttingDown = true := by
        cases h : s.shuttingDown
        · exact absurd ((hI.notShutting h).1) hfe
        · rfl
      have hstop1 : s.stopCalls = 1 := by simpa [hsd] using hI.stop
      have harm1 : s.forceExitArmCount = 1 := by simpa [hsd] using hI.arm
      constructor <;> simp [step, procExit, hI.idleVar, hsd, hstop1, harm1]

/-- Every reachable state satisfies the invariant. -/
theorem reachable_inv (cfg : Config) (s : St) (h : Reachable cfg s) : WdInv cfg s := by
  induction h with
  | init => exact inv_init cfg
  | step s e hR hE ih => exact inv_step cfg s e ih hE

/-- Claim C1 (counterexample): a run in which the force-exit deadline
expires before graceful teardown completes terminates the process with
exit status 0, not 1 — the force-exit timer callback is
`setTimeout(() => process.exit(0), 15000)`. -/
theorem C1_forced_timeout_exits_zero :
    (runEvents ⟨60, 30, false⟩
        [.tick 30000, .idleFires, .tick 45000, .forceExitFires]).exitPath
      = some ExitPath.forced
    ∧ (runEvents ⟨60, 30, false⟩
        [.tick 30000, .idleFires, .tick 45000, .forceExitFires]).exited
      = some 0 := by
  decide

/-- Claim C1 (amended): for every run of the watchdog's shutdown routine,
the process exit status is 0 when graceful teardown completes successfully
and also when the force-exit deadline expires before graceful teardown
completes; the exit status is 1 exactly when teardown throws. -/
theorem C1_exit_status (cfg : Config) (s : St) (h : Reachable cfg s) :
    (s.exitPath = some ExitPath.graceful → s.exited = some 0)
    ∧ (s.exitPath = some ExitPath.forced → s.exited = some 0)
    ∧ (s.exitPath = some ExitPath.teardownErr → s.exited = some 1)
    ∧ (s.exited = some 1 → s.exitPath = some ExitPath.teardownErr) := by
  have hI := reachable_inv cfg s h
  refine ⟨fun hp => (hI.pathGraceful hp).1, fun hp => (hI.pathForced hp).1,
          fun hp => (hI.pathErr hp).1, ?_⟩
  intro h1
  match hp : s.exitPath with
  | none => exact absurd h1 (by simp [hI.pathIff.mp hp])
  | some ExitPath.graceful => exact absurd h1 (by simp [(hI.pathGraceful hp).1])
  | some ExitPath.forced => exact absurd h1 (by simp [(hI.pathForced hp).1])
  | some ExitPath.teardownErr => rfl

/-- Claim C1 (witness): the amended statement instantiated at the concrete
run that receives SIGINT and then completes teardown successfully. -/
theorem C1_exit_status_witness :
    ((step ⟨60, 30, false⟩ (step ⟨60, 30, false⟩ (initSt ⟨60, 30, false⟩) Event.sigint)
        Event.stopResolveOk).exitPath = some ExitPath.graceful →
      (step ⟨60, 30, false⟩ (step ⟨60, 30, false⟩ (initSt ⟨60, 30, false⟩) Event.sigint)
        Event.stopResolveOk).exited = some 0)
    ∧ ((step ⟨60, 30, false⟩ (step ⟨60, 30, false⟩ (initSt ⟨60, 30, false⟩) Event.sigint)
        Event.stopResolveOk).exitPath = some ExitPath.forced →
      (step ⟨60, 30, false⟩ (step ⟨60, 30, false⟩ (initSt ⟨60, 30, false⟩) Event.sigint)
        Event.stopResolveOk).exited = some 0)
    ∧ ((step ⟨60, 30, false⟩ (step ⟨60, 30, false⟩ (initSt ⟨60, 30, false⟩) Event.sigint)
        Event.stopResolveOk).exitPath = some ExitPath.teardownErr →
      (step ⟨60, 30, false⟩ (step ⟨60, 30, false⟩ (initSt ⟨60, 30, false⟩) Event.sigint)
        Event.stopResolveOk).exited = some 1)
    ∧ ((step ⟨60, 30, false⟩ (step ⟨60, 30, false⟩ (initSt ⟨60, 30, false⟩) Event.sigint)
        Event.stopResolveOk).exited = some 1 →
      (step ⟨60, 30, false⟩ (step ⟨60, 30, false⟩ (initSt ⟨60, 30, false⟩) Event.sigint)
        Event.stopResolveOk).exitPath = some ExitPath.teardownErr) :=
  C1_exit_status ⟨60, 30, false⟩ _
    (Reachable.step _ _ (Reachable.step _ _ Reachable.init (by decide)) (by decide))

/-- Claim C2 (counterexample): with `NODE_ENV = "test"`, the max-lifetime
timer fires (it is pending and its deadline is reached) yet the shutdown
routine is never invoked — the trigger is silently ignored. -/
theorem C2_test_env_ignores_maxLifetime :
    enabled (runEvents ⟨60, 30, true⟩ [.tick 60000]) .maxLifetimeFires = true
    ∧ (runEvents ⟨60, 30, true⟩ [.tick 60000, .maxLifetimeFires]).shutdownInvocations = 0
    ∧ (runEvents ⟨60, 30, true⟩ [.tick 60000, .maxLifetimeFires]).shuttingDown = false := by
  decide

/-- Claim C2 (amended): whenever the max-lifetime timer fires and
`process.env.NODE_ENV` is not `"test"`, the shutdown routine is invoked; in
the `"test"` environment the trigger is silently dropped. -/
theorem C2_maxLifetime_invokes_shutdown (cfg : Config) (s : St)
    (hTest : cfg.nodeEnvTest = false) (hE : enabled s .maxLifetimeFires = true) :
    (step cfg s .maxLifetimeFires).shutdownInvocations = s.shutdownInvocations + 1 := by
  unfold step invokeShutdown shutdownSync
  rw [hTest]
  simp only [Bool.false_eq_true, if_false]
  split <;> rfl

/-- Claim C2 (witness): the amended statement instantiated at the armed
state with the clock advanced to the max-lifetime deadline. -/
theorem C2_maxLifetime_invokes_shutdown_witness :
    (step ⟨60, 30, false⟩ (step ⟨60, 30, false⟩ (initSt ⟨60, 30, false⟩) (Event.tick 60000))
        Event.maxLifetimeFires).shutdownInvocations
      = (step ⟨60, 30, false⟩ (initSt ⟨60, 30, false⟩) (Event.tick 60000)).shutdownInvocations
          + 1 :=
  C2_maxLifetime_invokes_shutdown ⟨60, 30, false⟩ _ rfl (by decide)

/-- Claim C3: at most one shutdown sequence runs to completion: every
reachable state has initiated teardown at most once; once the
`isShuttingDown` guard is set, re-invoking the routine is an identity (no
side effects); and the synchronous entry of the routine sets the guard in
the same synchronous step that initiates teardown, i.e. before any
suspension. -/
theorem C3_shutdown_idempotent (cfg : Config) (s : St) (h : Reachable cfg s) :
    s.stopCalls ≤ 1
    ∧ (s.shuttingDown = true → shutdownSync s = s)
    ∧ (s.shuttingDown = false →
        (shutdownSync s).shuttingDown = true
        ∧ (shutdownSync s).stopCalls = s.stopCalls + 1) := by
  have hI := reachable_inv cfg s h
  refine ⟨?_, fun hsd => shutdownSync_of_shutting s hsd, fun h0 => ?_⟩
  · rw [hI.stop]; split <;> omega
  · simp [shutdownSync, h0]

/-- Claim C3 (witness): the statement instantiated at the state reached
after a SIGINT has already begun the shutdown sequence. -/
theorem C3_shutdown_idempotent_witness :
    (step ⟨60, 30, false⟩ (initSt ⟨60, 30, false⟩) Event.sigint).stopCalls ≤ 1
    ∧ ((step ⟨60, 30, false⟩ (initSt ⟨60, 30, false⟩) Event.sigint).shuttingDown = true →
        shutdownSync (step ⟨60, 30, false⟩ (initSt ⟨60, 30, false⟩) Event.sigint)
          = step ⟨60, 30, false⟩ (initSt ⟨60, 30, false⟩) Event.sigint)
    ∧ ((step ⟨60, 30, false⟩ (initSt ⟨60, 30, false⟩) Event.sigint).shuttingDown = false →
        (shutdownSync (step ⟨60, 30, false⟩ (initSt ⟨60, 30, false⟩) Event.sigint)).shuttingDown
          = true
        ∧ (shutdownSync (step ⟨60, 30, false⟩ (initSt ⟨60, 30, false⟩) Event.sigint)).stopCalls
          = (step ⟨60, 30, false⟩ (initSt ⟨60, 30, false⟩) Event.sigint).stopCalls + 1) :=
  C3_shutdown_idempotent ⟨60, 30, false⟩ _
    (Reachable.step _ _ Reachable.init (by decide))

/-- Claim C4 (counterexample): on the teardown-failure exit path the
force-exit timer is still armed when the process exits — `process.exit(1)`
in the catch block runs without clearing it, and the `exit` listener clears
only the idle and max-lifetime timers. -/
theorem C4_force_exit_timer_left_at_exit :
    (runEvents ⟨60, 30, false⟩ [.sigint, .stopResolveErr]).exited = some 1
    ∧ (runEvents ⟨60, 30, false⟩ [.sigint, .stopResolveErr]).forceExitPending
      = some 15000 := by
  decide

/-- Claim C4 (amended): on every exit path the idle and max-lifetime timers
are cancelled before the process exits; the force-exit timer is no longer
pending on the graceful and forced paths, but remains armed (uncancelled)
when teardown fails. -/
theorem C4_timers_at_exit (cfg : Config) (s : St) (h : Reachable cfg s)
    (hx : s.exited ≠ none) :
    s.idlePending = none ∧ s.maxLifetimePending = none
    ∧ (s.exitPath = some ExitPath.graceful ∨ s.exitPath = some ExitPath.forced →
        s.forceExitPending = none)
    ∧ (s.exitPath = some ExitPath.teardownErr → s.forceExitPending ≠ none) := by
  have hI := reachable_inv cfg s h
  refine ⟨(hI.exitTimers hx).1, (hI.exitTimers hx).2, ?_, fun hp => (hI.pathErr hp).2⟩
  rintro (hp | hp)
  · exact (hI.pathGraceful hp).2
  · exact (hI.pathForced hp).2

/-- Claim C4 (witness): the amended statement instantiated at the run that
receives SIGINT and then completes teardown successfully. -/
theorem C4_timers_at_exit_witness :
    (step ⟨60, 30, false⟩ (step ⟨60, 30, false⟩ (initSt ⟨60, 30, false⟩) Event.sigint)
        Event.stopResolveOk).idlePending = none
    ∧ (step ⟨60, 30, false⟩ (step ⟨60, 30, false⟩ (initSt ⟨60, 30, false⟩) Event.sigint)
        Event.stopResolveOk).maxLifetimePending = none
    ∧ ((step ⟨60, 30, false⟩ (step ⟨60, 30, false⟩ (initSt ⟨60, 30, false⟩) Event.sigint)
          Event.stopResolveOk).exitPath = some ExitPath.graceful
        ∨ (step ⟨60, 30, false⟩ (step ⟨60, 30, false⟩ (initSt ⟨60, 30, false⟩) Event.sigint)
          Event.stopResolveOk).exitPath = some ExitPath.forced →
        (step ⟨60, 30, false⟩ (step ⟨60, 30, false⟩ (initSt ⟨60, 30, false⟩) Event.sigint)
          Event.stopResolveOk).forceExitPending = none)
    ∧ ((step ⟨60, 30, false⟩ (step ⟨60, 30, false⟩ (initSt ⟨60, 30, false⟩) Event.sigint)
          Event.stopResolveOk).exitPath = some ExitPath.teardownErr →
        (step ⟨60, 30, false⟩ (step ⟨60, 30, false⟩ (initSt ⟨60, 30, false⟩) Event.sigint)
          Event.stopResolveOk).forceExitPending ≠ none) :=
  C4_timers_at_exit ⟨60, 30, false⟩ _
    (Reachable.step _ _ (Reachable.step _ _ Reachable.init (by decide)) (by decide))
    (by decide)

/-- Claim C5: the synchronous entry of the shutdown routine arms the
force-exit timer with the fixed 15000 ms duration in the same synchronous
step that initiates teardown (so before `Server.stop()` is awaited); no
force-exit timer exists before shutdown begins; at most one force-exit
timer is ever armed; and on the graceful-success path the timer is no
longer pending when the process exits. -/
theorem C5_force_exit_arming (cfg : Config) (s : St) (h : Reachable cfg s) :
    (s.shuttingDown = false →
      (shutdownSync s).forceExitPending = some (s.now + 15000)
      ∧ (shutdownSync s).stopCalls = s.stopCalls + 1)
    ∧ (s.shuttingDown = false → s.forceExitPending = none)
    ∧ s.forceExitArmCount ≤ 1
    ∧ (s.exitPath = some ExitPath.graceful → s.forceExitPending = none) := by
  have hI := reachable_inv cfg s h
  refine ⟨fun h0 => ?_, fun h0 => (hI.notShutting h0).1, ?_,
          fun hp => (hI.pathGraceful hp).2⟩
  · simp [shutdownSync, h0]
  · rw [hI.arm]; split <;> omega

/-- Claim C5 (witness): the statement instantiated at the armed initial
state. -/
theorem C5_force_exit_arming_witness :
    ((initSt ⟨60, 30, false⟩).shuttingDown = false →
      (shutdownSync (initSt ⟨60, 30, false⟩)).forceExitPending
        = some ((initSt ⟨60, 30, false⟩).now + 15000)
      ∧ (shutdownSync (initSt ⟨60, 30, false⟩)).stopCalls
        = (initSt ⟨60, 30, false⟩).stopCalls + 1)
    ∧ ((initSt ⟨60, 30, false⟩).shuttingDown = false →
        (initSt ⟨60, 30, false⟩).forceExitPending = none)
    ∧ (initSt ⟨60, 30, false⟩).forceExitArmCount ≤ 1
    ∧ ((initSt ⟨60, 30, false⟩).exitPath = some ExitPath.graceful →
        (initSt ⟨60, 30, false⟩).forceExitPending = none) :=
  C5_force_exit_arming ⟨60, 30, false⟩ _ Reachable.init

/-- Claim C6: registry construction is a total function of the vision flag:
vision = true yields exactly the ordered screenshot-mode list (navigation
tools built with the parameter `false`, i.e. screenshot mode) followed by
the common tools; vision = false yields exactly the ordered snapshot-mode
list (navigation tools built with the parameter `true`) followed by the
same common tools. -/
theorem C6_registry_contents :
    selectTools true
      = [⟨"navigate", some false⟩, ⟨"go-back", some false⟩, ⟨"go-forward", some false⟩,
         ⟨"screenshot", none⟩, ⟨"move-mouse", none⟩, ⟨"click", none⟩, ⟨"drag", none⟩,
         ⟨"type", none⟩, ⟨"press-key", none⟩, ⟨"wait", none⟩, ⟨"pdf", none⟩,
         ⟨"close", none⟩]
    ∧ selectTools false
      = [⟨"navigate", some true⟩, ⟨"go-back", some true⟩, ⟨"go-forward", some true⟩,
         ⟨"snapshot", none⟩, ⟨"click", none⟩, ⟨"hover", none⟩, ⟨"type", none⟩,
         ⟨"press-key", none⟩, ⟨"wait", none⟩, ⟨"pdf", none⟩, ⟨"close", none⟩] :=
  ⟨rfl, rfl⟩

/-- Claim C7 (counterexample): the mode-specific tool-name sets of the two
modes are not disjoint — "click" (likewise "navigate", "go-back",
"go-forward" and "type") is a mode-specific tool name of both registries,
and it is not in the common subset, so the two registries share strictly
more than the common subset. -/
theorem C7_mode_specific_names_overlap :
    "click" ∈ toolNames snapshotSpecificTools
    ∧ "click" ∈ toolNames screenshotSpecificTools
    ∧ "click" ∉ toolNames commonTools
    ∧ "navigate" ∈ toolNames snapshotSpecificTools
    ∧ "navigate" ∈ toolNames screenshotSpecificTools := by
  decide

/-- Claim C7 (amended): for both mode flags the tool names of the produced
registry are pairwise unique and appear in declaration order; the names
exclusive to exactly one registry are {snapshot, hover} versus
{screenshot, move-mouse, drag} (disjoint); and the two registries share the
common subset (press-key, wait, pdf, close) together with the overlapping
mode-specific names navigate, go-back, go-forward, click and type. -/
theorem C7_registry_name_guarantees :
    toolNames snapshotTools
      = ["navigate", "go-back", "go-forward", "snapshot", "click", "hover", "type",
         "press-key", "wait", "pdf", "close"]
    ∧ toolNames screenshotTools
      = ["navigate", "go-back", "go-forward", "screenshot", "move-mouse", "click",
         "drag", "type", "press-key", "wait", "pdf", "close"]
    ∧ (toolNames snapshotTools).Nodup
    ∧ (toolNames screenshotTools).Nodup
    ∧ (toolNames snapshotTools).filter (fun n => (toolNames screenshotTools).contains n)
      = ["navigate", "go-back", "go-forward", "click", "type", "press-key", "wait",
         "pdf", "close"]
    ∧ (toolNames snapshotTools).filter (fun n => !(toolNames screenshotTools).contains n)
      = ["snapshot", "hover"]
    ∧ (toolNames screenshotTools).filter (fun n => !(toolNames snapshotTools).contains n)
      = ["screenshot", "move-mouse", "drag"] := by
  decide

/-- Claim C8: every data event on the input stream cancels the pending idle
timer and re-arms it with the same idleTimeout duration, independently of
the payload (valid request or not), and leaves the max-lifetime timer
unchanged; moreover the max-lifetime deadline is always the absolute
deadline fixed at arm time (or the timer is gone). -/
theorem C8_idle_reset (cfg : Config) (s : St) (b : Bool) (h : Reachable cfg s)
    (hE : enabled s (.stdinData b) = true) :
    (step cfg s (.stdinData b)).idlePending = some (s.now + cfg.idleTimeoutMs)
    ∧ (step cfg s (.stdinData b)).maxLifetimePending = s.maxLifetimePending
    ∧ step cfg s (.stdinData b) = step cfg s (.stdinData true)
    ∧ (s.maxLifetimePending = some cfg.maxLifetimeMs ∨ s.maxLifetimePending = none) := by
  have hI := reachable_inv cfg s h
  have hg : step cfg s (.stdinData b)
      = { s with idlePending := some (s.now + cfg.idleTimeoutMs) } := by
    unfold step
    rw [hI.idleVar]
    simp
  have hg2 : step cfg s (.stdinData true)
      = { s with idlePending := some (s.now + cfg.idleTimeoutMs) } := by
    unfold step
    rw [hI.idleVar]
    simp
  rw [hg, hg2]
  exact ⟨rfl, rfl, rfl, hI.maxAbs⟩

/-- Claim C8 (witness): the statement instantiated at the armed initial
state with an invalid-payload data event. -/
theorem C8_idle_reset_witness :
    (step ⟨60, 30, false⟩ (initSt ⟨60, 30, false⟩) (Event.stdinData false)).idlePending
      = some ((initSt ⟨60, 30, false⟩).now + Config.idleTimeoutMs ⟨60, 30, false⟩)
    ∧ (step ⟨60, 30, false⟩ (initSt ⟨60, 30, false⟩) (Event.stdinData false)).maxLifetimePending
      = (initSt ⟨60, 30, false⟩).maxLifetimePending
    ∧ step ⟨60, 30, false⟩ (initSt ⟨60, 30, false⟩) (Event.stdinData false)
      = step ⟨60, 30, false⟩ (initSt ⟨60, 30, false⟩) (Event.stdinData true)
    ∧ ((initSt ⟨60, 30, false⟩).maxLifetimePending
        = some (Config.maxLifetimeMs ⟨60, 30, false⟩)
      ∨ (initSt ⟨60, 30, false⟩).maxLifetimePending = none) :=
  C8_idle_reset ⟨60, 30, false⟩ _ false Reachable.init (by decide)

/-- Claim C9 (counterexample): invoking the program with
`--max-lifetime abc` surfaces no configuration error: `parseInt` yields
`NaN` (modelled `none`) and the process starts serving anyway. -/
theorem C9_bad_flag_serves :
    parseIntJS "abc" = none
    ∧ runProgram (some "abc") none = StartResult.serving none (some 30) := by
  decide

/-- Claim C9 (amended): invocations whose `--max-lifetime` or
`--idle-timeout` value is not a valid integer are not rejected at startup:
no configuration-error path exists, and the process starts serving with
whatever `parseInt` produced (`NaN`, modelled `none`, for invalid input). -/
theorem C9_no_startup_rejection (a b : Option String) :
    runProgram a b ≠ StartResult.configError
    ∧ runProgram a b = StartResult.serving (parseFlagValue a 60) (parseFlagValue b 30) :=
  ⟨by simp [runProgram], rfl⟩

/-- Claim C9 (witness): the amended statement instantiated at two invalid
flag values. -/
theorem C9_no_startup_rejection_witness :
    runProgram (some "abc") (some "xyz") ≠ StartResult.configError
    ∧ runProgram (some "abc") (some "xyz")
      = StartResult.serving (parseFlagValue (some "abc") 60)
          (parseFlagValue (some "xyz") 30) :=
  C9_no_startup_rejection (some "abc") (some "xyz")

/-- Claim C10: after shutdown has begun (guard set, process not yet
exited), a data event still cancels and re-arms the idle timer — the
handler checks only the idle-timer handle, not the guard — while changing
no shutdown-relevant observable; and when the re-armed timer later expires
it invokes the shutdown routine again (invocation counter increments) as a
guarded no-op, leaving every shutdown-relevant observable unchanged. -/
theorem C10_data_after_shutdown (cfg : Config) (s : St) (b : Bool) (h : Reachable cfg s)
    (hSd : s.shuttingDown = true) (hx : s.exited = none) :
    (step cfg s (.stdinData b)).idlePending = some (s.now + cfg.idleTimeoutMs)
    ∧ shutdownOutcome (step cfg s (.stdinData b)) = shutdownOutcome s
    ∧ shutdownOutcome (step cfg (step cfg s (.stdinData b)) .idleFires) = shutdownOutcome s
    ∧ (step cfg (step cfg s (.stdinData b)) .idleFires).shutdownInvocations
      = s.shutdownInvocations + 1 := by
  have hI := reachable_inv cfg s h
  have hg : step cfg s (.stdinData b)
      = { s with idlePending := some (s.now + cfg.idleTimeoutMs) } := by
    unfold step
    rw [hI.idleVar]
    simp
  rw [hg]
  have hg2 : step cfg { s with idlePending := some (s.now + cfg.idleTimeoutMs) }
        Event.idleFires
      = { s with idlePending := none,
                 shutdownInvocations := s.shutdownInvocations + 1 } :=
    shutdownSync_of_shutting _ hSd
  rw [hg2]
  exact ⟨rfl, rfl, rfl, rfl⟩

/-- Claim C10 (witness): the statement instantiated at the state reached
after SIGINT began the shutdown sequence, with a data event following. -/
theorem C10_data_after_shutdown_witness :
    (step ⟨60, 30, false⟩ (step ⟨60, 30, false⟩ (initSt ⟨60, 30, false⟩) Event.sigint)
        (Event.stdinData true)).idlePending
      = some ((step ⟨60, 30, false⟩ (initSt ⟨60, 30, false⟩) Event.sigint).now
          + Config.idleTimeoutMs ⟨60, 30, false⟩)
    ∧ shutdownOutcome (step ⟨60, 30, false⟩
        (step ⟨60, 30, false⟩ (initSt ⟨60, 30, false⟩) Event.sigint) (Event.stdinData true))
      = shutdownOutcome (step ⟨60, 30, false⟩ (initSt ⟨60, 30, false⟩) Event.sigint)
    ∧ shutdownOutcome (step ⟨60, 30, false⟩
        (step ⟨60, 30, false⟩
          (step ⟨60, 30, false⟩ (initSt ⟨60, 30, false⟩) Event.sigint)
          (Event.stdinData true)) Event.idleFires)
      = shutdownOutcome (step ⟨60, 30, false⟩ (initSt ⟨60, 30, false⟩) Event.sigint)
    ∧ (step ⟨60, 30, false⟩
        (step ⟨60, 30, false⟩
          (step ⟨60, 30, false⟩ (initSt ⟨60, 30, false⟩) Event.sigint)
          (Event.stdinData true)) Event.idleFires).shutdownInvocations
      = (step ⟨60, 30, false⟩ (initSt ⟨60, 30, false⟩) Event.sigint).shutdownInvocations + 1 :=
  C10_data_after_shutdown ⟨60, 30, false⟩ _ true
    (Reachable.step _ _ Reachable.init (by decide)) (by decide) (by decide)
